import Mathlib

set_option maxHeartbeats 1000000
set_option maxRecDepth 100000

/-
Shallow embedding of jaraco.xkcd (the caching comic-archive client).

The repository ships two near-duplicate versions of the client:
  * src/jaraco/xkcd/__init__.py  — the current package version, embedded
    below in namespace XkcdPkg;
  * src/jaraco/xkcd.py           — the historical single-module version,
    embedded below in namespace XkcdMod.
Shared pieces (_fix_numbers, make_cache, the session / cache behaviour,
the date and search-text helpers) are identical in both sources and are
embedded once at top level.

The HTTP transport and the cachecontrol file cache are external
collaborators (not code of this repository); `sessionGet` models their
contract as the spec describes it: a stored entry is reused unless the
request carries Cache-Control: no-cache (the ExpiresAfter(days=365*20)
heuristic makes every stored entry fresh within any realistic time frame),
and every network response is stored.  The network itself is an oracle
mapping a URL and the per-URL hit count to a response, so responses may
change between hits, which is what makes the caching claims non-trivial.
-/

/-- Scalar values of the JSON payloads and of instance attributes.  Python
floats are represented by rationals; only floats whose conversion behaviour
matters appear in the claims, so the textual repr of non-integral floats is
not modelled precisely (see `pyStr`). -/
inductive PyVal where
  | int (n : Int)
  | str (s : String)
  | none
  | float (q : Rat)
deriving DecidableEq

/-- An instance dictionary (`vars(self)`) or a parsed JSON object:
insertion-ordered key/value pairs.  Parsed dicts have unique keys. -/
abbrev Obj := List (String × PyVal)

/-- Dictionary lookup (attribute access / JSON indexing); the first binding
wins, which coincides with Python dict semantics on unique keys. -/
def lookupKey : Obj → String → Option PyVal
  | [], _ => Option.none
  | (k, v) :: rest, key => if k = key then some v else lookupKey rest key

/-- An HTTP response: status code and parsed JSON body. -/
structure Resp where
  status : Nat
  body : Obj
deriving DecidableEq

/-- Request identity.  The source builds the relative URLs
"{number}/info.0.json" and "info.0.json" against the fixed base
https://xkcd.com/; those URL strings are in bijection with this type
(integer rendering is injective). -/
inductive Url where
  | info
  | comic (n : Int)
deriving DecidableEq

/-- The network oracle: for each URL, the response returned on the k-th
network hit of that URL.  Responses may differ between hits — the remote
archive grows over time. -/
abbrev Net := Url → Nat → Resp

/-- Lookup in the persistent response cache (newest entry first). -/
def cacheLookup : List (Url × Resp) → Url → Option Resp
  | [], _ => Option.none
  | (u, r) :: rest, key => if u = key then some r else cacheLookup rest key

/-- Number of occurrences of a URL in the network log (the per-URL hit
count fed to the network oracle). -/
def countUrl : List Url → Url → Nat
  | [], _ => 0
  | u :: rest, key => (if u = key then 1 else 0) + countUrl rest key

/-- Process-wide session state: the persistent response cache (keyed by
URL, newest entry first), the log of URLs actually fetched from the
network, and the ids for which a Comic construction was started.  The two
logs are observational instrumentation used to state the laziness,
short-circuit and no-network claims. -/
structure Session where
  cache : List (Url × Resp)
  netLog : List Url
  constructed : List Int

/-- The state of a fresh process with an empty persistent cache. -/
def emptySession : Session := { cache := [], netLog := [], constructed := [] }

/-- session.get through cachecontrol with the ExpiresAfter(20 years)
heuristic: a cached entry is reused unless the request carries
Cache-Control: no-cache; on a miss the network is consulted (the per-URL
hit count selects the response) and the response is stored. -/
def sessionGet (net : Net) (noCache : Bool) (u : Url) (s : Session) : Resp × Session :=
  match (if noCache then Option.none else cacheLookup s.cache u) with
  | some r => (r, s)
  | Option.none =>
    let r := net u (countUrl s.netLog u)
    (r, { s with cache := (u, r) :: s.cache, netLog := s.netLog ++ [u] })

/-- Response.raise_for_status: an HTTPError is raised exactly for status
codes in [400, 600). -/
def isOkStatus (st : Nat) : Bool := decide (st < 400 ∨ 600 ≤ st)

/-- Errors surfaced by the embedded operations (Python exception kinds). -/
inductive Err where
  | requestFailed (status : Nat)
  | attributeError (name : String)
  | keyError (name : String)
  | typeError
  | valueError
deriving DecidableEq

/-- Python whitespace accepted (and stripped) by int(str).  The uncommon
vertical-tab and form-feed characters are not modelled. -/
def isPySpace (c : Char) : Bool := c == ' ' || c == '\t' || c == '\n' || c == '\r'

/-- Value of a list of decimal digit characters. -/
def digitsToNat (ds : List Char) : Nat :=
  ds.foldl (fun a c => a * 10 + (c.toNat - 48)) 0

/-- Helper for `pyIntOfString`: a nonempty all-digit core parses with the
given sign, anything else is a ValueError. -/
def parseDigitCore (sign : Int) (ds : List Char) : Option Int :=
  if ds ≠ [] ∧ ds.all Char.isDigit then some (sign * digitsToNat ds) else Option.none

/-- Python int(s) on a string: strip surrounding whitespace, an optional
sign, then a nonempty run of decimal digits; everything else raises
ValueError (modelled as Option.none).  Underscore digit separators and
non-ASCII digits are not modelled — no claim involves them. -/
def pyIntOfString (s : String) : Option Int :=
  let cs := ((s.data.dropWhile isPySpace).reverse.dropWhile isPySpace).reverse
  match cs with
  | '+' :: ds => parseDigitCore 1 ds
  | '-' :: ds => parseDigitCore (-1) ds
  | ds => parseDigitCore 1 ds

/-- Python int(float): truncation toward zero. -/
def ratTrunc (q : Rat) : Int := if 0 ≤ q then q.floor else q.ceil

/-- The function except_(TypeError, ValueError, use='args[0]')(int):
apply int(), and on TypeError/ValueError return the argument unchanged.
int on an int is the identity; on a string it parses per `pyIntOfString`
(ValueError absorbed); on a float it truncates toward zero; on None it
raises TypeError, absorbed. -/
def safe_int : PyVal → PyVal
  | .int n => .int n
  | .str s =>
    match pyIntOfString s with
    | some n => .int n
    | Option.none => .str s
  | .float q => .int (ratTrunc q)
  | .none => .none

/-- Comic._fix_numbers (identical in both source versions):
dict_map(safe_int, ob) — apply safe_int to every value, keep every key. -/
def fix_numbers (ob : Obj) : Obj := ob.map (fun kv => (kv.1, safe_int kv.2))

/-- Python str() of a scalar value.  str(None) is "None".  Integral floats
print with a trailing ".0"; the repr of non-integral floats is not
modelled precisely (no claim depends on it). -/
def pyStr : PyVal → String
  | .int n => toString n
  | .str s => s
  | .none => "None"
  | .float q => if q.den = 1 then toString q.num ++ ".0" else toString q.num ++ "/" ++ toString q.den

/-- Python sep.join(values). -/
def pyJoin (sep : String) : List String → String
  | [] => ""
  | [v] => v
  | v :: w :: rest => v ++ sep ++ pyJoin sep (w :: rest)

/-- Python str.lower, per character (ASCII case mapping; the claims use
ASCII text only). -/
def lowerS (s : String) : String := String.mk (s.data.map Char.toLower)

/-- jaraco.text.FoldedCase.__contains__: `t in FoldedCase(full)` holds iff
the lowercased t is a substring of the lowercased full text. -/
def foldedContains (full t : String) : Bool :=
  decide ((lowerS t).data <:+: (lowerS full).data)

/-- Zero-pad the decimal rendering of a nonnegative integer to the given
width (as Python's date formatting does). -/
def padNum (width : Nat) (n : Int) : String :=
  let s := toString n
  String.mk (List.replicate (width - s.length) '0') ++ s

/-- str(datetime.date(y, m, d)): ISO "YYYY-MM-DD" with zero padding. -/
def dateStr (y m d : Int) : String :=
  padNum 4 y ++ "-" ++ padNum 2 m ++ "-" ++ padNum 2 d

/-- Gregorian leap-year rule, as datetime uses. -/
def isLeap (y : Int) : Bool := y % 4 = 0 && (y % 100 ≠ 0 || y % 400 = 0)

/-- Days in a month, as datetime uses. -/
def daysInMonth (y m : Int) : Int :=
  if m = 2 then (if isLeap y then 29 else 28)
  else if m = 4 ∨ m = 6 ∨ m = 9 ∨ m = 11 then 30
  else 31

/-- The Comic.date property: datetime.date(self.year, self.month,
self.day).  Missing attributes raise AttributeError, non-integer parts
raise TypeError, out-of-range parts raise ValueError (MINYEAR = 1,
MAXYEAR = 9999). -/
def dateOf (d : Obj) : Except Err (Int × Int × Int) :=
  match lookupKey d "year" with
  | Option.none => .error (.attributeError "year")
  | some (PyVal.int y) =>
    match lookupKey d "month" with
    | Option.none => .error (.attributeError "month")
    | some (PyVal.int m) =>
      match lookupKey d "day" with
      | Option.none => .error (.attributeError "day")
      | some (PyVal.int dd) =>
        if 1 ≤ y ∧ y ≤ 9999 ∧ 1 ≤ m ∧ m ≤ 12 ∧ 1 ≤ dd ∧ dd ≤ daysInMonth y m
        then .ok (y, m, dd)
        else .error .valueError
      | some _ => .error .typeError
    | some _ => .error .typeError
  | some _ => .error .typeError

/-- The Comic.number property (self.num), coerced to the integer that
range() requires; a missing attribute raises AttributeError and a
non-integer num would make range() raise TypeError at the same call
site. -/
def numberZ (d : Obj) : Except Err Int :=
  match lookupKey d "num" with
  | some (PyVal.int n) => .ok n
  | some _ => .error .typeError
  | Option.none => .error (.attributeError "num")

/-- range(n, 0, -1): the ids n, n-1, …, 1 (empty when n ≤ 0). -/
def descIds (n : Int) : List Int := (List.range n.toNat).map (fun (k : Nat) => n - (k : Int))

/-- The attribute dictionary installed by Comic._404 for the sentinel id:
num 404, title "Not Found", no image, the fixed date 2008-04-01. -/
def notFoundFields : Obj :=
  [("num", PyVal.int 404), ("title", PyVal.str "Not Found"), ("img", PyVal.none),
   ("year", PyVal.int 2008), ("month", PyVal.int 4), ("day", PyVal.int 1)]

/-- make_cache(path): the storage path of the FileCache.
Source: path = os.environ.get('XKCD_CACHE_DIR', path or default), where
default = pathlib.Path('~/.cache/xkcd').expanduser() (modelled as the
home directory followed by /.cache/xkcd).  os.environ.get returns the
environment value whenever the variable is set; `path or default` yields
default when path is None or the empty (falsy) string. -/
def make_cache (envCacheDir : Option String) (path : Option String) (home : String) : String :=
  let default := home ++ "/.cache/xkcd"
  match envCacheDir with
  | some e => e
  | Option.none =>
    match path with
    | some p => if p = "" then default else p
    | Option.none => default

namespace XkcdPkg

/-- Comic.__init__ of the package version (src/jaraco/xkcd/__init__.py):
if _404(number) recognises the sentinel, install the hardcoded fields and
perform no fetch; otherwise _load fetches {number}/info.0.json through the
caching session, raises for a bad status, and installs the normalized JSON
as the instance dictionary.  Every entered construction appends its id to
the `constructed` log (instrumentation; it is not observed by the code). -/
def construct (net : Net) (n : Int) (s : Session) : Except Err Obj × Session :=
  if n = 404 then (.ok notFoundFields, { s with constructed := s.constructed ++ [n] })
  else
    let rs := sessionGet net false (Url.comic n) s
    let s2 := { rs.2 with constructed := rs.2.constructed ++ [n] }
    if isOkStatus rs.1.status then (.ok (fix_numbers rs.1.body), s2)
    else (.error (.requestFailed rs.1.status), s2)

/-- The pure outcome of a construction taken in a given cache / network
log: the sentinel fields for 404, otherwise the cached response if
present, else the network response at the given per-URL hit index,
normalized on success. -/
def constructResult (net : Net) (c : List (Url × Resp)) (k : Nat) (n : Int) : Except Err Obj :=
  if n = 404 then .ok notFoundFields
  else
    let r :=
      match cacheLookup c (Url.comic n) with
      | some r => r
      | Option.none => net (Url.comic n) k
    if isOkStatus r.status then .ok (fix_numbers r.body)
    else .error (.requestFailed r.status)

/-- The document construct would return for id n in session state s. -/
def docAt (net : Net) (s : Session) (n : Int) : Except Err Obj :=
  constructResult net s.cache (countUrl s.netLog (Url.comic n)) n

/-- Comic.full_text of the package version: the case-folded join of all
instance attribute values and the composed date, separated by the pipe
character.  FoldedCase preserves the characters; the folding happens in
comparisons (`foldedContains`). -/
def full_text (d : Obj) : Except Err String :=
  match dateOf d with
  | .error e => .error e
  | .ok (y, m, dd) =>
    .ok (pyJoin "|" (d.map (fun kv => pyStr kv.2) ++ [dateStr y m dd]))

/-- Comic.latest: GET info.0.json with Cache-Control: no-cache, raise for
a bad status, then construct the comic numbered by the response's num. -/
def latest (net : Net) (s : Session) : Except Err Obj × Session :=
  let rs := sessionGet net true Url.info s
  if isOkStatus rs.1.status then
    match lookupKey rs.1.body "num" with
    | some (PyVal.int n) => construct net n rs.2
    | some _ => (.error .typeError, rs.2)
    | Option.none => (.error (.keyError "num"), rs.2)
  else (.error (.requestFailed rs.1.status), rs.2)

/-- Comic.all: map(cls, range(latest.number, 0, -1)).  Calling this runs
latest() eagerly; the returned value is the (lazy) sequence of ids still
to be constructed, one per pull. -/
def all (net : Net) (s : Session) : Except Err (List Int) × Session :=
  let ls := latest net s
  match ls.1 with
  | .error e => (.error e, ls.2)
  | .ok d =>
    match numberZ d with
    | .error e => (.error e, ls.2)
    | .ok n => (.ok (descIds n), ls.2)

/-- Pulling the listed elements of the lazy map(cls, …) sequence one after
another: each pull constructs its Comic; an element's failure does not
unconstruct it. -/
def consume (net : Net) : List Int → Session → List (Except Err Obj) × Session
  | [], s => ([], s)
  | n :: rest, s =>
    let cs := construct net n s
    let more := consume net rest cs.2
    (cs.1 :: more.1, more.2)

/-- The generator (comic for comic in cls.all() if text in comic.full_text)
driven by next(…, None): construct each id in turn, stop at the first
comic whose folded full text contains the search text, propagate the
first error, return Option.none when exhausted. -/
def searchLoop (net : Net) (t : String) : List Int → Session → Except Err (Option Obj) × Session
  | [], s => (.ok Option.none, s)
  | n :: rest, s =>
    let cs := construct net n s
    match cs.1 with
    | .error e => (.error e, cs.2)
    | .ok d =>
      match full_text d with
      | .error e => (.error e, cs.2)
      | .ok ft =>
        if foldedContains ft t then (.ok (some d), cs.2)
        else searchLoop net t rest cs.2

/-- Comic.search: next((comic for comic in cls.all() if text in
comic.full_text), None). -/
def search (net : Net) (t : String) (s : Session) : Except Err (Option Obj) × Session :=
  let asq := all net s
  match asq.1 with
  | .error e => (.error e, asq.2)
  | .ok ids => searchLoop net t ids asq.2

end XkcdPkg

namespace XkcdMod

/-- Comic.__init__ of the historical module version (src/jaraco/xkcd.py):
the GET for {number}/info.0.json is issued BEFORE the 404 check; for the
sentinel the constructor then returns early, leaving the instance
dictionary empty; otherwise it raises for a bad status and installs the
normalized JSON.  Every entered construction appends its id to the
`constructed` log. -/
def construct (net : Net) (n : Int) (s : Session) : Except Err Obj × Session :=
  let rs := sessionGet net false (Url.comic n) s
  let s2 := { rs.2 with constructed := rs.2.constructed ++ [n] }
  if n = 404 then (.ok [], s2)
  else if isOkStatus rs.1.status then (.ok (fix_numbers rs.1.body), s2)
  else (.error (.requestFailed rs.1.status), s2)

/-- Comic.full_text of the module version: the folded join of the instance
attribute values only — the composed date is NOT appended. -/
def full_text (d : Obj) : String := pyJoin "|" (d.map (fun kv => pyStr kv.2))

/-- Comic.latest of the module version (same code as the package version,
but constructing through the module constructor). -/
def latest (net : Net) (s : Session) : Except Err Obj × Session :=
  let rs := sessionGet net true Url.info s
  if isOkStatus rs.1.status then
    match lookupKey rs.1.body "num" with
    | some (PyVal.int n) => construct net n rs.2
    | some _ => (.error .typeError, rs.2)
    | Option.none => (.error (.keyError "num"), rs.2)
  else (.error (.requestFailed rs.1.status), rs.2)

/-- Comic.older: map(cls, range(latest.number - 100, 0, -1)). -/
def older (net : Net) (s : Session) : Except Err (List Int) × Session :=
  let ls := latest net s
  match ls.1 with
  | .error e => (.error e, ls.2)
  | .ok d =>
    match numberZ d with
    | .error e => (.error e, ls.2)
    | .ok n => (.ok (descIds (n - 100)), ls.2)

end XkcdMod

/-- A two-comic archive used as concrete input for witnesses and
counterexamples: the latest id is 2. -/
def bodyComic2 : Obj :=
  [("num", PyVal.int 2), ("title", PyVal.str "Beta"),
   ("img", PyVal.str "https://example.test/b.png"),
   ("year", PyVal.int 2020), ("month", PyVal.int 1), ("day", PyVal.int 2)]

/-- Comic 1 of the concrete archive. -/
def bodyComic1 : Obj :=
  [("num", PyVal.int 1), ("title", PyVal.str "Alpha"),
   ("img", PyVal.str "https://example.test/a.png"),
   ("year", PyVal.int 2020), ("month", PyVal.int 1), ("day", PyVal.int 1)]

/-- Concrete network oracle with latest id 2. -/
def netA : Net := fun u _k =>
  match u with
  | Url.info => { status := 200, body := [("num", PyVal.int 2)] }
  | Url.comic n =>
    if n = 2 then { status := 200, body := bodyComic2 }
    else if n = 1 then { status := 200, body := bodyComic1 }
    else { status := 404, body := [] }

/-- Concrete network oracle with latest id 120 (for the older() claim). -/
def netB120 : Net := fun u _k =>
  match u with
  | Url.info => { status := 200, body := [("num", PyVal.int 120)] }
  | Url.comic n =>
    if n = 120 then
      { status := 200,
        body := [("num", PyVal.int 120), ("title", PyVal.str "Recent"),
                 ("year", PyVal.int 2021), ("month", PyVal.int 6), ("day", PyVal.int 7)] }
    else { status := 200,
           body := [("num", PyVal.int n), ("title", PyVal.str "Old"),
                    ("year", PyVal.int 2020), ("month", PyVal.int 5), ("day", PyVal.int 6)] }

/-- Network oracle whose comic-1 response changes after the first network
hit: a second fetch that actually reached the network would observe a
different body, so only the cache can make repeated construction agree. -/
def netVary : Net := fun u k =>
  match u with
  | Url.info => { status := 200, body := [("num", PyVal.int 1)] }
  | Url.comic _ =>
    if k = 0 then { status := 200, body := [("num", PyVal.int 1), ("title", PyVal.str "First")] }
    else { status := 200, body := [("num", PyVal.int 1), ("title", PyVal.str "Changed")] }

/-- Network oracle answering 200 with an empty JSON object for every comic
(all required keys absent). -/
def netEmptyBody : Net := fun u _k =>
  match u with
  | Url.info => { status := 200, body := [("num", PyVal.int 1)] }
  | Url.comic _ => { status := 200, body := [] }

/-- The raw JSON for comic 1179 "ISO 8601" with string-typed date parts
and no transcript field. -/
def bodyComic1179 : Obj :=
  [("num", PyVal.int 1179), ("title", PyVal.str "ISO 8601"),
   ("img", PyVal.str "https://imgs.xkcd.com/comics/iso_8601.png"),
   ("year", PyVal.str "2013"), ("month", PyVal.str "2"), ("day", PyVal.str "27")]

/-- The normalized attribute dictionary for comic 1179. -/
def docComic1179 : Obj :=
  [("num", PyVal.int 1179), ("title", PyVal.str "ISO 8601"),
   ("img", PyVal.str "https://imgs.xkcd.com/comics/iso_8601.png"),
   ("year", PyVal.int 2013), ("month", PyVal.int 2), ("day", PyVal.int 27)]

/-- Network oracle serving comic 1179. -/
def net1179 : Net := fun u _k =>
  match u with
  | Url.info => { status := 200, body := [("num", PyVal.int 1179)] }
  | Url.comic n =>
    if n = 1179 then { status := 200, body := bodyComic1179 }
    else { status := 404, body := [] }

/-- The spec's example input mapping for the numeric normalizer:
{"a": "5", "b": 5, "c": "x", "d": 5.0}. -/
def exampleMap : Obj :=
  [("a", PyVal.str "5"), ("b", PyVal.int 5), ("c", PyVal.str "x"), ("d", PyVal.float 5)]

/-- The spec's expected output mapping: {"a": 5, "b": 5, "c": "x", "d": 5}. -/
def exampleOut : Obj :=
  [("a", PyVal.int 5), ("b", PyVal.int 5), ("c", PyVal.str "x"), ("d", PyVal.int 5)]

/-- Value-level contract of the numeric normalization step, stated per
input value: integers pass through, strings parse when int() accepts them
and pass through otherwise, floats are truncated toward zero, None passes
through. -/
def ConvSpec (v v' : PyVal) : Prop :=
  (∀ n, v = PyVal.int n → v' = PyVal.int n) ∧
  (∀ s, v = PyVal.str s →
    (∀ n, pyIntOfString s = some n → v' = PyVal.int n) ∧
    (pyIntOfString s = Option.none → v' = PyVal.str s)) ∧
  (∀ q, v = PyVal.float q → v' = PyVal.int (ratTrunc q)) ∧
  (v = PyVal.none → v' = PyVal.none)

/-- A searchable id m is a non-match in session state s: its construction
succeeds, its full text is computable, and the folded containment test
rejects the search text. -/
def NoMatch (net : Net) (t : String) (s : Session) (m : Int) : Prop :=
  ∃ d ft, XkcdPkg.docAt net s m = .ok d ∧ XkcdPkg.full_text d = .ok ft ∧
    foldedContains ft t = false

/-- A document matches the search text: its full text is computable and
the folded containment test accepts. -/
def IsMatch (t : String) (d : Obj) : Prop :=
  ∃ ft, XkcdPkg.full_text d = .ok ft ∧ foldedContains ft t = true

/-- Behaviour of Comic.search over the descending enumeration ids (as
produced by Comic.all): the enumeration is a descending range, a returned
document is the first match — everything before it was constructed,
checked and rejected, everything after it (all smaller ids) was never
constructed — and an absent result means the whole enumeration was
constructed and rejected. -/
def SearchOutcome (net : Net) (t : String) (s₀ : Session) (ids : List Int) : Prop :=
  (∃ N, ids = descIds N) ∧
  (∀ d, (XkcdPkg.search net t s₀).1 = .ok (some d) →
    ∃ pre n post, ids = pre ++ n :: post ∧
      (∀ m ∈ pre, NoMatch net t (XkcdPkg.all net s₀).2 m) ∧
      XkcdPkg.docAt net (XkcdPkg.all net s₀).2 n = .ok d ∧
      IsMatch t d ∧
      (∀ m ∈ post, m < n) ∧
      (XkcdPkg.search net t s₀).2.constructed
        = (XkcdPkg.all net s₀).2.constructed ++ (pre ++ [n])) ∧
  ((XkcdPkg.search net t s₀).1 = .ok Option.none →
    (∀ m ∈ ids, NoMatch net t (XkcdPkg.all net s₀).2 m) ∧
    (XkcdPkg.search net t s₀).2.constructed
      = (XkcdPkg.all net s₀).2.constructed ++ ids)

/-- Behaviour of Comic.all when it succeeds with the id list ids: the list
is the descending range below the latest number, strictly decreasing from
that number down to 1; pulling the first k elements constructs exactly
those k ids; and the creation of the enumeration itself has already
performed the latest() fetch (always a network hit, being no-cache) plus
the construction of one comic — possibly a second network hit — before any
element is pulled. -/
def AllSpec (net : Net) (s₀ : Session) (ids : List Int) : Prop :=
  ∃ N d, (XkcdPkg.latest net s₀).1 = .ok d ∧ numberZ d = .ok N ∧
    ids = descIds N ∧
    ids.length = N.toNat ∧
    List.Pairwise (· > ·) ids ∧
    (1 ≤ N → ids.head? = some N ∧ ids.getLast? = some 1) ∧
    (∀ k, (XkcdPkg.consume net (ids.take k) (XkcdPkg.all net s₀).2).2.constructed
        = (XkcdPkg.all net s₀).2.constructed ++ ids.take k) ∧
    (∃ n₀, (XkcdPkg.all net s₀).2.constructed = s₀.constructed ++ [n₀] ∧
      ((XkcdPkg.all net s₀).2.netLog = s₀.netLog ++ [Url.info] ∨
       (XkcdPkg.all net s₀).2.netLog = s₀.netLog ++ [Url.info, Url.comic n₀]))

/-- Behaviour of the module version's Comic.older when it succeeds: it
enumerates every id from latest().number - 100 down to 1 — a sequence of
length N - 100, not a 100-wide window. -/
def OlderSpec (net : Net) (s₀ : Session) (ids : List Int) : Prop :=
  ∃ N d, (XkcdMod.latest net s₀).1 = .ok d ∧ numberZ d = .ok N ∧
    ids = descIds (N - 100) ∧
    ids.length = (N - 100).toNat ∧
    List.Pairwise (· > ·) ids ∧
    (101 ≤ N → ids.head? = some (N - 100) ∧ ids.getLast? = some 1)

/-- Error behaviour of non-sentinel construction in the package version:
a RequestFailed signal occurs exactly when the response the caching
session yields has a non-success status; on success the normalized body
is installed verbatim, whatever keys it has — no error of any other kind
is ever signalled at construction time, and a missing num key only
surfaces later, as an AttributeError on the first attribute access. -/
def ConstructErrSpec (net : Net) (n : Int) (s : Session) : Prop :=
  ((∃ st, (XkcdPkg.construct net n s).1 = .error (Err.requestFailed st)) ↔
    isOkStatus ((sessionGet net false (Url.comic n) s).1).status = false) ∧
  (isOkStatus ((sessionGet net false (Url.comic n) s).1).status = true →
    (XkcdPkg.construct net n s).1 = .ok (fix_numbers ((sessionGet net false (Url.comic n) s).1).body)) ∧
  (∀ e, (XkcdPkg.construct net n s).1 = .error e → ∃ st, e = Err.requestFailed st) ∧
  (∀ d, (XkcdPkg.construct net n s).1 = .ok d → lookupKey d "num" = Option.none →
    numberZ d = .error (.attributeError "num"))

lemma stringData_append (s t : String) : (s ++ t).data = s.data ++ t.data := rfl

lemma lowerS_data (s : String) : (lowerS s).data = s.data.map Char.toLower := rfl

lemma countUrl_append (l l' : List Url) (key : Url) :
    countUrl (l ++ l') key = countUrl l key + countUrl l' key := by
  induction l with
  | nil => simp [countUrl]
  | cons u rest ih => simp [countUrl, ih]; ring

lemma sessionGet_noCache (net : Net) (u : Url) (s : Session) :
    sessionGet net true u s =
      (net u (countUrl s.netLog u),
       { s with cache := (u, net u (countUrl s.netLog u)) :: s.cache,
                netLog := s.netLog ++ [u] }) := rfl

lemma sessionGet_hit (net : Net) (u : Url) (s : Session) (r : Resp)
    (h : cacheLookup s.cache u = some r) : sessionGet net false u s = (r, s) := by
  simp [sessionGet, h]

lemma sessionGet_miss (net : Net) (u : Url) (s : Session)
    (h : cacheLookup s.cache u = Option.none) :
    sessionGet net false u s =
      (net u (countUrl s.netLog u),
       { s with cache := (u, net u (countUrl s.netLog u)) :: s.cache,
                netLog := s.netLog ++ [u] }) := by
  simp [sessionGet, h]

lemma construct_fst (net : Net) (n : Int) (s : Session) :
    (XkcdPkg.construct net n s).1 = XkcdPkg.docAt net s n := by
  unfold XkcdPkg.construct XkcdPkg.docAt XkcdPkg.constructResult
  by_cases h4 : n = 404
  · simp [h4]
  · simp only [h4, if_false]
    cases hc : cacheLookup s.cache (Url.comic n) with
    | none =>
      rw [sessionGet_miss net _ _ hc]
      by_cases hs : isOkStatus (net (Url.comic n) (countUrl s.netLog (Url.comic n))).status <;>
        simp [hs]
    | some r =>
      rw [sessionGet_hit net _ _ r hc]
      by_cases hs : isOkStatus r.status <;> simp [hs]

lemma construct_constructed (net : Net) (n : Int) (s : Session) :
    (XkcdPkg.construct net n s).2.constructed = s.constructed ++ [n] := by
  unfold XkcdPkg.construct
  by_cases h4 : n = 404
  · simp [h4]
  · simp only [h4, if_false]
    cases hc : cacheLookup s.cache (Url.comic n) with
    | none =>
      rw [sessionGet_miss net _ _ hc]
      by_cases hs : isOkStatus (net (Url.comic n) (countUrl s.netLog (Url.comic n))).status <;>
        simp [hs]
    | some r =>
      rw [sessionGet_hit net _ _ r hc]
      by_cases hs : isOkStatus r.status <;> simp [hs]

lemma construct_netLog_cases (net : Net) (n : Int) (s : Session) :
    (XkcdPkg.construct net n s).2.netLog = s.netLog ∨
    (XkcdPkg.construct net n s).2.netLog = s.netLog ++ [Url.comic n] := by
  unfold XkcdPkg.construct
  by_cases h4 : n = 404
  · left; simp [h4]
  · simp only [h4, if_false]
    cases hc : cacheLookup s.cache (Url.comic n) with
    | none =>
      right
      rw [sessionGet_miss net _ _ hc]
      by_cases hs : isOkStatus (net (Url.comic n) (countUrl s.netLog (Url.comic n))).status <;>
        simp [hs]
    | some r =>
      left
      rw [sessionGet_hit net _ _ r hc]
      by_cases hs : isOkStatus r.status <;> simp [hs]

lemma construct_cache_ne (net : Net) (n m : Int) (s : Session) (h : n ≠ m) :
    cacheLookup (XkcdPkg.construct net n s).2.cache (Url.comic m)
      = cacheLookup s.cache (Url.comic m) := by
  unfold XkcdPkg.construct
  by_cases h4 : n = 404
  · simp [h4]
  · simp only [h4, if_false]
    cases hc : cacheLookup s.cache (Url.comic n) with
    | none =>
      rw [sessionGet_miss net _ _ hc]
      by_cases hs : isOkStatus (net (Url.comic n) (countUrl s.netLog (Url.comic n))).status <;>
        simp [hs, cacheLookup, Url.comic.injEq, h]
    | some r =>
      rw [sessionGet_hit net _ _ r hc]
      by_cases hs : isOkStatus r.status <;> simp [hs]

lemma construct_count_ne (net : Net) (n m : Int) (s : Session) (h : n ≠ m) :
    countUrl (XkcdPkg.construct net n s).2.netLog (Url.comic m)
      = countUrl s.netLog (Url.comic m) := by
  rcases construct_netLog_cases net n s with he | he
  · rw [he]
  · rw [he, countUrl_append]
    simp [countUrl, Url.comic.injEq, h]

lemma docAt_construct_ne (net : Net) (n m : Int) (s : Session) (h : n ≠ m) :
    XkcdPkg.docAt net (XkcdPkg.construct net n s).2 m = XkcdPkg.docAt net s m := by
  unfold XkcdPkg.docAt XkcdPkg.constructResult
  rw [construct_cache_ne net n m s h, construct_count_ne net n m s h]

lemma docAt_after_self (net : Net) (n : Int) (s : Session) (d : Obj)
    (h : (XkcdPkg.construct net n s).1 = .ok d) :
    XkcdPkg.docAt net (XkcdPkg.construct net n s).2 n = .ok d := by
  by_cases h4 : n = 404
  · subst h4
    have hd : d = notFoundFields := by
      unfold XkcdPkg.construct at h
      simp at h
      exact h.symm
    subst hd
    simp [XkcdPkg.docAt, XkcdPkg.constructResult]
  · unfold XkcdPkg.construct at h ⊢
    unfold XkcdPkg.docAt XkcdPkg.constructResult
    simp only [h4, if_false] at h ⊢
    cases hc : cacheLookup s.cache (Url.comic n) with
    | none =>
      rw [sessionGet_miss net _ _ hc] at h ⊢
      by_cases hs : isOkStatus (net (Url.comic n) (countUrl s.netLog (Url.comic n))).status
      · simp [hs, cacheLookup] at h ⊢
        exact h
      · simp [hs] at h
    | some r =>
      rw [sessionGet_hit net _ _ r hc] at h ⊢
      by_cases hs : isOkStatus r.status
      · simp [hs, hc] at h ⊢
        exact h
      · simp [hs] at h

lemma latest_ok_state (net : Net) (s : Session) (d : Obj)
    (h : (XkcdPkg.latest net s).1 = .ok d) :
    ∃ n₀, (XkcdPkg.latest net s).2.constructed = s.constructed ++ [n₀] ∧
      ((XkcdPkg.latest net s).2.netLog = s.netLog ++ [Url.info] ∨
       (XkcdPkg.latest net s).2.netLog = s.netLog ++ [Url.info, Url.comic n₀]) := by
  unfold XkcdPkg.latest at h ⊢
  rw [sessionGet_noCache] at h ⊢
  by_cases hs : isOkStatus (net Url.info (countUrl s.netLog Url.info)).status
  · simp only [hs, if_true] at h ⊢
    cases hk : lookupKey (net Url.info (countUrl s.netLog Url.info)).body "num" with
    | none => simp [hk] at h
    | some v =>
      cases v with
      | int n₀ =>
        simp only [hk] at h ⊢
        refine ⟨n₀, ?_, ?_⟩
        · rw [construct_constructed]
        · rcases construct_netLog_cases net n₀
            ({ s with cache := (Url.info, net Url.info (countUrl s.netLog Url.info)) :: s.cache,
                      netLog := s.netLog ++ [Url.info] }) with he | he
          · left; rw [he]
          · right; rw [he]; simp
      | str v => simp [hk] at h
      | float v => simp [hk] at h
      | none => simp [hk] at h
  · simp [hs] at h

lemma all_ok (net : Net) (s : Session) (ids : List Int)
    (h : (XkcdPkg.all net s).1 = .ok ids) :
    ∃ d N, (XkcdPkg.latest net s).1 = .ok d ∧ numberZ d = .ok N ∧ ids = descIds N ∧
      (XkcdPkg.all net s).2 = (XkcdPkg.latest net s).2 := by
  cases hl : (XkcdPkg.latest net s).1 with
  | error e =>
    have hx : (XkcdPkg.all net s).1 = .error e := by simp only [XkcdPkg.all, hl]
    rw [hx] at h
    simp at h
  | ok d =>
    cases hn : numberZ d with
    | error e =>
      have hx : (XkcdPkg.all net s).1 = .error e := by simp only [XkcdPkg.all, hl, hn]
      rw [hx] at h
      simp at h
    | ok N =>
      have hx : (XkcdPkg.all net s).1 = .ok (descIds N) := by simp only [XkcdPkg.all, hl, hn]
      have h2 : (XkcdPkg.all net s).2 = (XkcdPkg.latest net s).2 := by
        simp only [XkcdPkg.all, hl, hn]
      rw [hx] at h
      have hids : ids = descIds N := by
        injection h with h'
        exact h'.symm
      exact ⟨d, N, rfl, hn, hids, h2⟩

lemma older_ok (net : Net) (s : Session) (ids : List Int)
    (h : (XkcdMod.older net s).1 = .ok ids) :
    ∃ d N, (XkcdMod.latest net s).1 = .ok d ∧ numberZ d = .ok N ∧
      ids = descIds (N - 100) := by
  cases hl : (XkcdMod.latest net s).1 with
  | error e =>
    have hx : (XkcdMod.older net s).1 = .error e := by simp only [XkcdMod.older, hl]
    rw [hx] at h
    simp at h
  | ok d =>
    cases hn : numberZ d with
    | error e =>
      have hx : (XkcdMod.older net s).1 = .error e := by simp only [XkcdMod.older, hl, hn]
      rw [hx] at h
      simp at h
    | ok N =>
      have hx : (XkcdMod.older net s).1 = .ok (descIds (N - 100)) := by
        simp only [XkcdMod.older, hl, hn]
      rw [hx] at h
      have hids : ids = descIds (N - 100) := by
        injection h with h'
        exact h'.symm
      exact ⟨d, N, rfl, hn, hids⟩

lemma descIds_length (n : Int) : (descIds n).length = n.toNat := by
  unfold descIds
  rw [List.length_map, List.length_range]

lemma descIds_pairwise (n : Int) : List.Pairwise (· > ·) (descIds n) := by
  unfold descIds
  rw [List.pairwise_map]
  exact List.Pairwise.imp (fun hab => by omega) (List.pairwise_lt_range n.toNat)

lemma descIds_nodup (n : Int) : (descIds n).Nodup :=
  (descIds_pairwise n).imp (fun h => ne_of_gt h)

lemma descIds_eq_cons (n : Int) (h : 1 ≤ n) : ∃ rest, descIds n = n :: rest := by
  unfold descIds
  have hm : n.toNat = (n.toNat - 1) + 1 := by omega
  rw [hm, List.range_succ_eq_map, List.map_cons]
  have h0 : n - ((0 : Nat) : Int) = n := by norm_num
  rw [h0]
  exact ⟨_, rfl⟩

lemma descIds_head (n : Int) (h : 1 ≤ n) : (descIds n).head? = some n := by
  obtain ⟨rest, hr⟩ := descIds_eq_cons n h
  rw [hr]
  rfl

lemma descIds_getLast (n : Int) (h : 1 ≤ n) : (descIds n).getLast? = some 1 := by
  unfold descIds
  have hm : n.toNat = (n.toNat - 1) + 1 := by omega
  rw [hm, List.range_succ, List.map_append, List.map_singleton, List.getLast?_concat]
  simp only [Option.some.injEq]
  omega

lemma pyJoin_concat_suffix (sep : String) (xs : List String) (x : String) :
    ∃ pre : List Char, (pyJoin sep (xs ++ [x])).data = pre ++ x.data := by
  induction xs with
  | nil => exact ⟨[], by simp [pyJoin]⟩
  | cons a rest ih =>
    obtain ⟨pre, hp⟩ := ih
    cases rest with
    | nil =>
      refine ⟨a.data ++ sep.data, ?_⟩
      show (pyJoin sep (a :: [x])).data = a.data ++ sep.data ++ x.data
      simp [pyJoin, stringData_append]
    | cons b rest' =>
      refine ⟨a.data ++ sep.data ++ pre, ?_⟩
      show (pyJoin sep (a :: ((b :: rest') ++ [x]))).data = a.data ++ sep.data ++ pre ++ x.data
      simp only [List.cons_append, pyJoin, stringData_append]
      rw [show ((b :: rest') ++ [x]) = (b :: (rest' ++ [x])) from rfl] at hp
      simp [hp]

lemma foldedContains_empty (full : String) : foldedContains full "" = true := by
  simp only [foldedContains, decide_eq_true_eq]
  exact ⟨[], (lowerS full).data, by simp [lowerS]⟩

lemma foldedContains_of_data_suffix (full t : String) (pre : List Char)
    (h : full.data = pre ++ t.data) : foldedContains full t = true := by
  simp only [foldedContains, decide_eq_true_eq]
  refine ⟨pre.map Char.toLower, [], ?_⟩
  simp [lowerS_data, h]

lemma consume_constructed (net : Net) (l : List Int) : ∀ s : Session,
    (XkcdPkg.consume net l s).2.constructed = s.constructed ++ l := by
  induction l with
  | nil => intro s; simp [XkcdPkg.consume]
  | cons n rest ih =>
    intro s
    show (XkcdPkg.consume net rest (XkcdPkg.construct net n s).2).2.constructed = _
    rw [ih, construct_constructed]
    simp

lemma searchLoop_spec (net : Net) (t : String) (ids : List Int) : ∀ s : Session, ids.Nodup →
    ((∀ d, (XkcdPkg.searchLoop net t ids s).1 = .ok (some d) →
      ∃ pre n post, ids = pre ++ n :: post ∧
        (∀ m ∈ pre, NoMatch net t s m) ∧
        XkcdPkg.docAt net s n = .ok d ∧ IsMatch t d ∧
        (XkcdPkg.searchLoop net t ids s).2.constructed = s.constructed ++ (pre ++ [n])) ∧
     ((XkcdPkg.searchLoop net t ids s).1 = .ok Option.none →
      (∀ m ∈ ids, NoMatch net t s m) ∧
      (XkcdPkg.searchLoop net t ids s).2.constructed = s.constructed ++ ids)) := by
  induction ids with
  | nil =>
    intro s _
    constructor
    · intro d hd
      simp [XkcdPkg.searchLoop] at hd
    · intro _
      refine ⟨by simp, ?_⟩
      simp [XkcdPkg.searchLoop]
  | cons n rest ih =>
    intro s hnd
    rw [List.nodup_cons] at hnd
    obtain ⟨hnotin, hndr⟩ := hnd
    have hfst := construct_fst net n s
    cases hd1 : (XkcdPkg.construct net n s).1 with
    | error e =>
      have hred : XkcdPkg.searchLoop net t (n :: rest) s
          = (.error e, (XkcdPkg.construct net n s).2) := by
        simp [XkcdPkg.searchLoop, hd1]
      constructor
      · intro d hd
        rw [hred] at hd
        simp at hd
      · intro hd
        rw [hred] at hd
        simp at hd
    | ok d0 =>
      have hdoc0 : XkcdPkg.docAt net s n = .ok d0 := by rw [← hfst]; exact hd1
      cases hft : XkcdPkg.full_text d0 with
      | error e =>
        have hred : XkcdPkg.searchLoop net t (n :: rest) s
            = (.error e, (XkcdPkg.construct net n s).2) := by
          simp [XkcdPkg.searchLoop, hd1, hft]
        constructor
        · intro d hd
          rw [hred] at hd
          simp at hd
        · intro hd
          rw [hred] at hd
          simp at hd
      | ok ft =>
        by_cases hm : foldedContains ft t = true
        · have hred : XkcdPkg.searchLoop net t (n :: rest) s
              = (.ok (some d0), (XkcdPkg.construct net n s).2) := by
            simp [XkcdPkg.searchLoop, hd1, hft, hm]
          constructor
          · intro d hd
            rw [hred] at hd
            simp at hd
            subst hd
            refine ⟨[], n, rest, by simp, by simp, hdoc0, ⟨ft, hft, hm⟩, ?_⟩
            rw [hred]
            show (XkcdPkg.construct net n s).2.constructed = _
            rw [construct_constructed]
            simp
          · intro hd
            rw [hred] at hd
            simp at hd
        · rw [Bool.not_eq_true] at hm
          have hred : XkcdPkg.searchLoop net t (n :: rest) s
              = XkcdPkg.searchLoop net t rest (XkcdPkg.construct net n s).2 := by
            simp [XkcdPkg.searchLoop, hd1, hft, hm]
          have hdocEq : ∀ m ∈ rest,
              XkcdPkg.docAt net (XkcdPkg.construct net n s).2 m = XkcdPkg.docAt net s m := by
            intro m hmem
            exact docAt_construct_ne net n m s (fun he => hnotin (he ▸ hmem))
          obtain ⟨ihsome, ihnone⟩ := ih (XkcdPkg.construct net n s).2 hndr
          constructor
          · intro d hd
            rw [hred] at hd
            obtain ⟨pre, n', post, hsplit, hpre, hdoc, hmatch, hcons⟩ := ihsome d hd
            have hn'mem : n' ∈ rest := by rw [hsplit]; simp
            refine ⟨n :: pre, n', post, by rw [hsplit]; simp, ?_, ?_, hmatch, ?_⟩
            · intro m hmem
              rcases List.mem_cons.mp hmem with he | hmem'
              · subst he
                exact ⟨d0, ft, hdoc0, hft, hm⟩
              · have hmemr : m ∈ rest := by
                  rw [hsplit]
                  exact List.mem_append.mpr (Or.inl hmem')
                obtain ⟨dm, ftm, hh1, hh2, hh3⟩ := hpre m hmem'
                rw [hdocEq m hmemr] at hh1
                exact ⟨dm, ftm, hh1, hh2, hh3⟩
            · rw [hdocEq n' hn'mem] at hdoc
              exact hdoc
            · rw [hred, hcons, construct_constructed]
              simp
          · intro hd
            rw [hred] at hd
            obtain ⟨hall, hcons⟩ := ihnone hd
            constructor
            · intro m hmem
              rcases List.mem_cons.mp hmem with he | hmem'
              · subst he
                exact ⟨d0, ft, hdoc0, hft, hm⟩
              · obtain ⟨dm, ftm, hh1, hh2, hh3⟩ := hall m hmem'
                rw [hdocEq m hmem'] at hh1
                exact ⟨dm, ftm, hh1, hh2, hh3⟩
            · rw [hred, hcons, construct_constructed]
              simp

/-- C1: for every search string t, Comic.search iterates the descending
enumeration produced by Comic.all newest-first and returns the first
Document whose searchText contains t as a substring under case-folding
(hence the highest-id match: every id after the hit is smaller); it
returns absent (None) when the sequence is exhausted with no match; and it
constructs no Document beyond the first match — the construction log stops
exactly at the hit. -/
theorem search_first_match (net : Net) (t : String) (s₀ : Session) (ids : List Int)
    (h : (XkcdPkg.all net s₀).1 = .ok ids) : SearchOutcome net t s₀ ids := by
  obtain ⟨d, N, hl, hn, hids, h2⟩ := all_ok net s₀ ids h
  have hred : XkcdPkg.search net t s₀ = XkcdPkg.searchLoop net t ids (XkcdPkg.all net s₀).2 := by
    simp only [XkcdPkg.search, h]
  have hnd : ids.Nodup := by rw [hids]; exact descIds_nodup N
  obtain ⟨hsome, hnone⟩ := searchLoop_spec net t ids (XkcdPkg.all net s₀).2 hnd
  refine ⟨⟨N, hids⟩, ?_, ?_⟩
  · intro d' hd'
    rw [hred] at hd'
    obtain ⟨pre, n, post, hsplit, hpre, hdoc, hmatch, hcons⟩ := hsome d' hd'
    refine ⟨pre, n, post, hsplit, hpre, hdoc, hmatch, ?_, ?_⟩
    · have hpw : List.Pairwise (· > ·) ids := by rw [hids]; exact descIds_pairwise N
      rw [hsplit] at hpw
      have hsub : List.Pairwise (· > ·) (n :: post) :=
        List.Pairwise.sublist (List.sublist_append_right _ _) hpw
      intro m hmem
      exact (List.pairwise_cons.mp hsub).1 m hmem
    · rw [hred]
      exact hcons
  · intro hd'
    rw [hred] at hd'
    obtain ⟨hall', hcons⟩ := hnone hd'
    refine ⟨hall', ?_⟩
    rw [hred]
    exact hcons

/-- Witness for C1 at a concrete archive: the enumeration succeeds with
ids [2, 1] and the search specification holds there. -/
theorem search_first_match_witness :
    (XkcdPkg.all netA emptySession).1 = .ok [(2 : Int), 1] ∧
    SearchOutcome netA "BETA" emptySession [2, 1] :=
  ⟨by rfl, search_first_match netA "BETA" emptySession [2, 1] (by rfl)⟩

/-- C2 (amended to the package version): constructing the sentinel comic
404 touches neither the cache nor the network log — no I/O of any kind —
and yields exactly the hardcoded fields: id 404, title "Not Found", no
image, and the fixed date 2008-04-01. -/
theorem construct404_sentinel (net : Net) (s : Session) :
    XkcdPkg.construct net 404 s
      = (.ok notFoundFields, { s with constructed := s.constructed ++ [404] }) ∧
    lookupKey notFoundFields "num" = some (PyVal.int 404) ∧
    lookupKey notFoundFields "title" = some (PyVal.str "Not Found") ∧
    lookupKey notFoundFields "img" = some PyVal.none ∧
    dateOf notFoundFields = .ok (2008, 4, 1) ∧
    dateStr 2008 4 1 = "2008-04-01" := by
  refine ⟨?_, by rfl, by rfl, by rfl, by rfl, by rfl⟩
  simp [XkcdPkg.construct]

/-- Counterexample to C2 as stated: in the historical module version the
GET for 404/info.0.json is issued before the sentinel check — the network
log of a fresh session is no longer empty — and the early return leaves
the instance dictionary empty, so none of the sentinel fields (not even
the title) is present. -/
theorem construct404_mod_cex :
    (XkcdMod.construct netA 404 emptySession).1 = .ok ([] : Obj) ∧
    (XkcdMod.construct netA 404 emptySession).2.netLog = [Url.comic 404] ∧
    (XkcdMod.construct netA 404 emptySession).2.netLog ≠ ([] : List Url) ∧
    lookupKey ([] : Obj) "title" = Option.none := by
  refine ⟨by rfl, by rfl, ?_, rfl⟩
  intro h
  rw [show (XkcdMod.construct netA 404 emptySession).2.netLog = [Url.comic 404] from rfl] at h
  simp at h

/-- The Python float 5.5 — chosen exactly representable in binary floating
point — as the rational 11/2. -/
def pyFloat55 : Rat := ⟨11, 2, by decide, by decide⟩

lemma convSpec_safe_int (v : PyVal) : ConvSpec v (safe_int v) := by
  unfold ConvSpec
  refine ⟨?_, ?_, ?_, ?_⟩
  · intro n hv
    subst hv
    rfl
  · intro s hv
    subst hv
    constructor
    · intro n hp
      simp [safe_int, hp]
    · intro hp
      simp [safe_int, hp]
  · intro q hv
    subst hv
    rfl
  · intro hv
    subst hv
    rfl

/-- C3 (amended): the numeric normalization keeps every key in place and
rewrites each value by Python int() semantics — integers unchanged,
numeric strings parsed, floats truncated toward zero — while every value
on which int() raises passes through unchanged; no exception escapes (the
function is total), and the spec's example mapping normalizes exactly as
stated. -/
theorem fix_numbers_spec :
    (∀ ob : Obj, (fix_numbers ob).map Prod.fst = ob.map Prod.fst ∧
      List.Forall₂ (fun kv kv' => ConvSpec kv.2 kv'.2) ob (fix_numbers ob)) ∧
    fix_numbers exampleMap = exampleOut := by
  constructor
  · intro ob
    constructor
    · simp [fix_numbers, List.map_map, Function.comp]
    · induction ob with
      | nil => exact List.Forall₂.nil
      | cons kv rest ih =>
        simp only [fix_numbers, List.map_cons] at ih ⊢
        exact List.Forall₂.cons (convSpec_safe_int kv.2) ih
  · decide

/-- Counterexample to C3 as stated: the float 5.5 cannot be losslessly
interpreted as an integer (it differs from every integer), yet the
normalizer does not pass it through unchanged — int() truncates it to 5. -/
theorem fix_numbers_lossy_cex :
    fix_numbers [("e", PyVal.float pyFloat55)] = [("e", PyVal.int 5)] ∧
    fix_numbers [("e", PyVal.float pyFloat55)] ≠ [("e", PyVal.float pyFloat55)] ∧
    ∀ z : Int, pyFloat55 ≠ (z : Rat) := by
  refine ⟨by decide, by decide, ?_⟩
  intro z hz
  have h1 : pyFloat55.den = 2 := rfl
  rw [hz, Rat.den_intCast] at h1
  simp at h1

/-- C4 (amended): when Comic.all succeeds with id list ids, the
enumeration holds exactly latest-number ids, strictly decreasing from that
number down to 1, and pulling the first k elements constructs exactly
those k comics (on demand); however creating the enumeration has already
run latest() — one unconditional network fetch of info.0.json plus the
construction of one comic, possibly a second fetch — before any element is
pulled. -/
theorem all_desc (net : Net) (s₀ : Session) (ids : List Int)
    (h : (XkcdPkg.all net s₀).1 = .ok ids) : AllSpec net s₀ ids := by
  obtain ⟨d, N, hl, hn, hids, h2⟩ := all_ok net s₀ ids h
  refine ⟨N, d, hl, hn, hids, ?_, ?_, ?_, ?_, ?_⟩
  · rw [hids]
    exact descIds_length N
  · rw [hids]
    exact descIds_pairwise N
  · intro h1
    rw [hids]
    exact ⟨descIds_head N h1, descIds_getLast N h1⟩
  · intro k
    exact consume_constructed net (ids.take k) (XkcdPkg.all net s₀).2
  · obtain ⟨n₀, hc, hlog⟩ := latest_ok_state net s₀ d hl
    rw [h2]
    exact ⟨n₀, hc, hlog⟩

/-- Witness for C4's amended theorem at the concrete two-comic archive. -/
theorem all_desc_witness :
    (XkcdPkg.all netA emptySession).1 = .ok [(2 : Int), 1] ∧
    AllSpec netA emptySession [2, 1] :=
  ⟨by rfl, all_desc netA emptySession [2, 1] (by rfl)⟩

/-- Counterexample to C4 as stated: merely creating the enumeration (no
element pulled yet) has already hit the network twice — the no-cache
latest fetch and the construction of the latest comic — and constructed a
Document. -/
theorem all_network_before_pull_cex :
    (XkcdPkg.all netA emptySession).1 = .ok [(2 : Int), 1] ∧
    (XkcdPkg.all netA emptySession).2.netLog = [Url.info, Url.comic 2] ∧
    (XkcdPkg.all netA emptySession).2.netLog ≠ ([] : List Url) ∧
    (XkcdPkg.all netA emptySession).2.constructed = [2] := by
  refine ⟨by rfl, by rfl, ?_, by rfl⟩
  intro h
  rw [show (XkcdPkg.all netA emptySession).2.netLog = [Url.info, Url.comic 2] from rfl] at h
  simp at h

/-- C5 (amended): the cache path resolution gives the environment override
the highest priority — whenever XKCD_CACHE_DIR is set its value wins, even
against an explicit caller-supplied path; the explicit path is used only
when the variable is unset (and the path is non-empty), and otherwise the
default under the user's cache directory applies. -/
theorem make_cache_priority :
    (∀ e p h, make_cache (some e) p h = e) ∧
    (∀ p h, p ≠ "" → make_cache Option.none (some p) h = p) ∧
    (∀ h, make_cache Option.none Option.none h = h ++ "/.cache/xkcd") := by
  refine ⟨fun e p h => rfl, fun p h hp => ?_, fun h => rfl⟩
  simp [make_cache, hp]

/-- Witness for C5's amended theorem at concrete paths. -/
theorem make_cache_priority_witness :
    make_cache (some "/env") (some "/explicit") "/home/u" = "/env" ∧
    make_cache Option.none (some "/explicit") "/home/u" = "/explicit" ∧
    make_cache Option.none Option.none "/home/u" = "/home/u/.cache/xkcd" :=
  ⟨make_cache_priority.1 "/env" (some "/explicit") "/home/u",
   make_cache_priority.2.1 "/explicit" "/home/u" (by decide),
   make_cache_priority.2.2 "/home/u"⟩

/-- Counterexample to C5 as stated: with the environment override set, an
explicit caller-supplied path does NOT win — the environment value does. -/
theorem make_cache_env_overrides_cex :
    make_cache (some "/env/cache") (some "/explicit") "/home/u" = "/env/cache" ∧
    "/env/cache" ≠ "/explicit" := ⟨rfl, by decide⟩

/-- C6 (amended): the module version's Comic.older enumerates every id
from latest().number - 100 all the way down to 1 — a strictly decreasing
sequence of length N - 100 that starts (not ends) at N - 100 — rather than
a window of exactly 100 ids. -/
theorem older_desc (net : Net) (s₀ : Session) (ids : List Int)
    (h : (XkcdMod.older net s₀).1 = .ok ids) : OlderSpec net s₀ ids := by
  obtain ⟨d, N, hl, hn, hids⟩ := older_ok net s₀ ids h
  refine ⟨N, d, hl, hn, hids, ?_, ?_, ?_⟩
  · rw [hids]
    exact descIds_length _
  · rw [hids]
    exact descIds_pairwise _
  · intro h1
    have h1' : (1 : Int) ≤ N - 100 := by omega
    rw [hids]
    exact ⟨descIds_head _ h1', descIds_getLast _ h1'⟩

/-- Witness for C6's amended theorem: with latest id 120, older()
enumerates the 20 ids from 20 down to 1. -/
theorem older_desc_witness :
    (XkcdMod.older netB120 emptySession).1 = .ok (descIds 20) ∧
    OlderSpec netB120 emptySession (descIds 20) :=
  ⟨by rfl, older_desc netB120 emptySession (descIds 20) (by rfl)⟩

/-- Counterexample to C6 as stated: with latest id 120 the sequence has 20
elements, not 100, and it ends at 1 while starting at latest - 100 = 20. -/
theorem older_window_cex :
    (XkcdMod.older netB120 emptySession).1 = .ok (descIds 20) ∧
    (descIds 20).length = 20 ∧
    (descIds 20).length ≠ 100 ∧
    (descIds 20).head? = some 20 ∧
    (descIds 20).getLast? = some 1 :=
  ⟨by rfl, by decide, by decide, by decide, by decide⟩

/-- C7 (amended to the package version): every computable full text is the
join, by the pipe separator, of all attribute values followed by the
composed date, and consequently a folded-containment search by the date
string succeeds on it.  (Containment is case-folded on both sides; the
stored text itself keeps its case and is equal to the folded text under
FoldedCase comparison.) -/
theorem full_text_dated (d : Obj) (ft : String)
    (h : XkcdPkg.full_text d = .ok ft) :
    ∃ y mo dy, dateOf d = .ok (y, mo, dy) ∧
      ft = pyJoin "|" (d.map (fun kv => pyStr kv.2) ++ [dateStr y mo dy]) ∧
      foldedContains ft (dateStr y mo dy) = true := by
  unfold XkcdPkg.full_text at h
  cases hd : dateOf d with
  | error e =>
    rw [hd] at h
    simp at h
  | ok tri =>
    obtain ⟨y, mo, dy⟩ := tri
    rw [hd] at h
    simp at h
    refine ⟨y, mo, dy, rfl, h.symm, ?_⟩
    obtain ⟨pre, hp⟩ := pyJoin_concat_suffix "|" (d.map (fun kv => pyStr kv.2)) (dateStr y mo dy)
    refine foldedContains_of_data_suffix ft _ pre ?_
    rw [← h]
    exact hp

/-- Witness for C7's amended theorem at the sentinel document. -/
theorem full_text_dated_witness :
    XkcdPkg.full_text notFoundFields = .ok "404|Not Found|None|2008|4|1|2008-04-01" ∧
    (∃ y mo dy, dateOf notFoundFields = .ok (y, mo, dy) ∧
      "404|Not Found|None|2008|4|1|2008-04-01"
        = pyJoin "|" (notFoundFields.map (fun kv => pyStr kv.2) ++ [dateStr y mo dy]) ∧
      foldedContains "404|Not Found|None|2008|4|1|2008-04-01" (dateStr y mo dy) = true) :=
  ⟨by rfl, full_text_dated notFoundFields "404|Not Found|None|2008|4|1|2008-04-01" (by rfl)⟩

/-- Counterexample to C7 as stated: in the historical module version the
full text omits the composed date, so a successfully constructed document
whose fields do not spell the ISO date is not found by a date search. -/
theorem full_text_mod_date_cex :
    (XkcdMod.construct net1179 1179 emptySession).1 = .ok docComic1179 ∧
    XkcdMod.full_text docComic1179
      = "1179|ISO 8601|https://imgs.xkcd.com/comics/iso_8601.png|2013|2|27" ∧
    dateStr 2013 2 27 = "2013-02-27" ∧
    foldedContains (XkcdMod.full_text docComic1179) (dateStr 2013 2 27) = false :=
  ⟨by rfl, by rfl, by rfl, by decide⟩

lemma construct_eq_of_resp (net : Net) (n : Int) (s : Session) (h : n ≠ 404) :
    (XkcdPkg.construct net n s).1
      = (if isOkStatus ((sessionGet net false (Url.comic n) s).1).status
         then .ok (fix_numbers ((sessionGet net false (Url.comic n) s).1).body)
         else .error (.requestFailed ((sessionGet net false (Url.comic n) s).1).status)) := by
  by_cases hs : isOkStatus ((sessionGet net false (Url.comic n) s).1).status <;>
    simp [XkcdPkg.construct, h, hs]

/-- C8 (amended): for non-sentinel ids the construction raises
RequestFailed exactly when the response the caching session produces has a
non-success status (surfaced immediately — no retry, no sentinel); on a
success status the normalized body is installed as-is, whatever keys it
has — absent required keys raise nothing at construction time, and the
missing num only surfaces later as an AttributeError on attribute
access. -/
theorem construct_error_spec (net : Net) (n : Int) (s : Session) (h : n ≠ 404) :
    ConstructErrSpec net n s := by
  unfold ConstructErrSpec
  have hcon := construct_eq_of_resp net n s h
  by_cases hs : isOkStatus ((sessionGet net false (Url.comic n) s).1).status
  · rw [hcon, if_pos hs]
    refine ⟨⟨?_, ?_⟩, fun _ => rfl, ?_, ?_⟩
    · rintro ⟨st, hst⟩
      simp at hst
    · intro hfalse
      rw [hfalse] at hs
      exact absurd hs (by simp)
    · intro e he
      simp at he
    · intro d hd hnum
      simp at hd
      subst hd
      simp [numberZ, hnum]
  · have hs' : isOkStatus ((sessionGet net false (Url.comic n) s).1).status = false := by
      rw [Bool.not_eq_true] at hs
      exact hs
    rw [hcon, if_neg hs]
    refine ⟨⟨fun _ => hs', fun _ => ⟨((sessionGet net false (Url.comic n) s).1).status, rfl⟩⟩,
      ?_, ?_, ?_⟩
    · intro htrue
      exact absurd htrue hs
    · intro e he
      have he' : Err.requestFailed ((sessionGet net false (Url.comic n) s).1).status = e := by
        injection he
      exact ⟨_, he'.symm⟩
    · intro d hd
      exact absurd hd (by simp)

/-- Witness for C8's amended theorem at the concrete archive. -/
theorem construct_error_spec_witness :
    (1 : Int) ≠ 404 ∧ ConstructErrSpec netA 1 emptySession :=
  ⟨by decide, construct_error_spec netA 1 emptySession (by decide)⟩

/-- Counterexample to C8 as stated: a success response whose JSON object
has none of the required keys constructs without any signal — no
MalformedRecord-like error is raised at construction time. -/
theorem construct_no_malformed_cex :
    (XkcdPkg.construct netEmptyBody 1 emptySession).1 = .ok ([] : Obj) ∧
    lookupKey ([] : Obj) "num" = Option.none ∧
    lookupKey ([] : Obj) "title" = Option.none ∧
    (∀ e, (XkcdPkg.construct netEmptyBody 1 emptySession).1 ≠ .error e) := by
  refine ⟨by rfl, rfl, rfl, ?_⟩
  intro e he
  rw [show (XkcdPkg.construct netEmptyBody 1 emptySession).1 = .ok ([] : Obj) from rfl] at he
  simp at he

/-- C9: two successive constructions of the same id through the shared
caching session yield field-equal documents — even when the network would
have served a different body on a second hit, the cache created by the
first construction answers the second. -/
theorem construct_idempotent (net : Net) (n : Int) (s : Session) (d₁ d₂ : Obj)
    (h₁ : (XkcdPkg.construct net n s).1 = .ok d₁)
    (h₂ : (XkcdPkg.construct net n (XkcdPkg.construct net n s).2).1 = .ok d₂) :
    d₁ = d₂ := by
  have hafter := docAt_after_self net n s d₁ h₁
  rw [construct_fst, hafter] at h₂
  injection h₂

/-- Witness for C9 at a network whose second response differs from the
first: both constructions still return the first body. -/
theorem construct_idempotent_witness :
    (XkcdPkg.construct netVary 1 emptySession).1
        = .ok [("num", PyVal.int 1), ("title", PyVal.str "First")] ∧
    (XkcdPkg.construct netVary 1 (XkcdPkg.construct netVary 1 emptySession).2).1
        = .ok [("num", PyVal.int 1), ("title", PyVal.str "First")] ∧
    (netVary (Url.comic 1) 1).body ≠ (netVary (Url.comic 1) 0).body ∧
    ([("num", PyVal.int 1), ("title", PyVal.str "First")] : Obj)
        = [("num", PyVal.int 1), ("title", PyVal.str "First")] :=
  ⟨by rfl, by rfl, by decide,
   construct_idempotent netVary 1 emptySession _ _ (by rfl) (by rfl)⟩

/-- C10 (amended): searching for the empty string returns the newest
document — the empty string is a substring of every folded full text — but
two Documents are constructed in the process, both with the latest id: one
inside the latest() call that creates the enumeration, one as the first
enumerated element. -/
theorem search_empty_newest (net : Net) (s₀ : Session) (N : Int) (d : Obj) (ft : String)
    (h1 : (XkcdPkg.all net s₀).1 = .ok (descIds N))
    (h2 : 1 ≤ N)
    (h3 : XkcdPkg.docAt net (XkcdPkg.all net s₀).2 N = .ok d)
    (h4 : XkcdPkg.full_text d = .ok ft) :
    (XkcdPkg.search net "" s₀).1 = .ok (some d) ∧
    ∃ n₀, (XkcdPkg.search net "" s₀).2.constructed = s₀.constructed ++ [n₀, N] := by
  obtain ⟨rest, hr⟩ := descIds_eq_cons N h2
  have hred : XkcdPkg.search net "" s₀
      = XkcdPkg.searchLoop net "" (descIds N) (XkcdPkg.all net s₀).2 := by
    simp only [XkcdPkg.search, h1]
  have hc1 : (XkcdPkg.construct net N (XkcdPkg.all net s₀).2).1 = .ok d := by
    rw [construct_fst]
    exact h3
  have hloop : XkcdPkg.searchLoop net "" (descIds N) (XkcdPkg.all net s₀).2
      = (.ok (some d), (XkcdPkg.construct net N (XkcdPkg.all net s₀).2).2) := by
    rw [hr]
    simp [XkcdPkg.searchLoop, hc1, h4, foldedContains_empty]
  constructor
  · rw [hred, hloop]
  · obtain ⟨dl, Nl, hl, hn, hids, hstate⟩ := all_ok net s₀ (descIds N) h1
    obtain ⟨n₀, hc, _⟩ := latest_ok_state net s₀ dl hl
    refine ⟨n₀, ?_⟩
    rw [hred, hloop]
    show (XkcdPkg.construct net N (XkcdPkg.all net s₀).2).2.constructed = _
    rw [construct_constructed, hstate, hc]
    simp

/-- Witness for C10's amended theorem at the concrete archive. -/
theorem search_empty_newest_witness :
    (XkcdPkg.all netA emptySession).1 = .ok (descIds 2) ∧
    (1 : Int) ≤ 2 ∧
    XkcdPkg.docAt netA (XkcdPkg.all netA emptySession).2 2 = .ok bodyComic2 ∧
    XkcdPkg.full_text bodyComic2
      = .ok "2|Beta|https://example.test/b.png|2020|1|2|2020-01-02" ∧
    ((XkcdPkg.search netA "" emptySession).1 = .ok (some bodyComic2) ∧
     ∃ n₀, (XkcdPkg.search netA "" emptySession).2.constructed
        = emptySession.constructed ++ [n₀, 2]) :=
  ⟨by rfl, by decide, by rfl, by rfl,
   search_empty_newest netA emptySession 2 bodyComic2
     "2|Beta|https://example.test/b.png|2020|1|2|2020-01-02"
     (by rfl) (by decide) (by rfl) (by rfl)⟩

/-- Counterexample to C10 as stated: the empty search does return the
newest document, but the construction log shows two constructions (both of
the latest id), not exactly one. -/
theorem search_empty_two_constructions_cex :
    (XkcdPkg.search netA "" emptySession).1 = .ok (some bodyComic2) ∧
    (XkcdPkg.search netA "" emptySession).2.constructed = [2, 2] ∧
    ((XkcdPkg.search netA "" emptySession).2.constructed).length = 2 ∧
    ((XkcdPkg.search netA "" emptySession).2.constructed).length ≠ 1 := by
  refine ⟨by rfl, by rfl, by rfl, ?_⟩
  intro hc
  rw [show ((XkcdPkg.search netA "" emptySession).2.constructed).length = 2 from by rfl] at hc
  simp at hc
